import Mathlib

/-!
Shallow embedding of the whitcloudOS RK3588 driver crates
(src/drivers/mmc/src/lib.rs and src/drivers/gpio/src/lib.rs).

The hardware is modelled as an abstract MMIO device: a state type `σ`
together with a `read` function (which may change the device state, as a
volatile MMIO read may) and a `write` function.  Every driver routine is
embedded as a Lean function over an arbitrary device; in addition to its
result and final device state it returns the exact sequence of register
accesses (the trace), so that claims about write ordering, poll counts and
absence of accesses can be stated and proved.

Machine integers are naturals; wrapping 32-bit arithmetic is written with
an explicit `% 4294967296` at the one place the Rust code can overflow
(the doubled frequency in `set_clock`).  Rust panics (integer division by
zero, failed `assert!`) are modelled explicitly: by a `panicked` outcome
in the MMC driver and by `Option` (with `none` for panic) in the GPIO
helpers.
-/

namespace WhitcloudOS

/-- One register-level MMIO access performed by the driver. -/
inductive Event where
  | read  (offset : Nat) (value : Nat)
  | write (offset : Nat) (value : Nat)
deriving DecidableEq, Repr

/-- An abstract memory-mapped controller: a state type with a volatile
read (which may react, returning a new state) and a write. -/
structure Device (σ : Type) where
  read  : σ → Nat → Nat × σ
  write : σ → Nat → Nat → σ

/-- Register offsets, from src/drivers/mmc/src/lib.rs. -/
def SDMMC_CTRL : Nat := 0x000

def SDMMC_PWREN : Nat := 0x004

def SDMMC_CLKDIV : Nat := 0x008

def SDMMC_CLKENA : Nat := 0x010

def SDMMC_TMOUT : Nat := 0x014

def SDMMC_CTYPE : Nat := 0x018

def SDMMC_CMDARG : Nat := 0x028

def SDMMC_CMD : Nat := 0x02C

def SDMMC_RESP0 : Nat := 0x030

def SDMMC_FIFOTH : Nat := 0x04C

def SDMMC_CDETECT : Nat := 0x050

/-- Control-register bits. -/
def CTRL_RESET : Nat := 1 <<< 0

def CTRL_FIFO_RESET : Nat := 1 <<< 1

def CTRL_DMA_RESET : Nat := 1 <<< 2

/-- Command-register bits. -/
def CMD_START : Nat := 1 <<< 31

def CMD_WAIT_PRVDATA : Nat := 1 <<< 13

/-- The closed error taxonomy of the MMC driver (`MmcError` in the source). -/
inductive MmcError where
  | InitFailed
  | ResetTimeout
  | CommandTimeout
  | CardNotPresent
  | UnsupportedCard
deriving DecidableEq, Repr

/-- Outcome of one embedded driver operation: a value, a driver error, or
a Rust panic (integer division by zero is the only panic source in the
embedded MMC code). -/
inductive Step (α : Type) where
  | ok (a : α)
  | err (e : MmcError)
  | panicked
deriving DecidableEq, Repr

variable {σ : Type}

/-- The polling loop of `SdMmc::reset`: `while read(CTRL) & 0x07 != 0`,
decrementing a budget that starts at 10000; when the budget hits zero the
loop returns `ResetTimeout`.  The fuel argument is the remaining budget,
so fuel `0` is the `timeout == 0` early return (no further read). -/
def reset_poll (d : Device σ) : Nat → σ → Step Unit × σ × List Event
  | 0, s => (Step.err MmcError.ResetTimeout, s, [])
  | t + 1, s =>
    let r := d.read s SDMMC_CTRL
    if r.1 &&& 0x07 ≠ 0 then
      let q := reset_poll d t r.2
      (q.1, q.2.1, Event.read SDMMC_CTRL r.1 :: q.2.2)
    else
      (Step.ok (), r.2, [Event.read SDMMC_CTRL r.1])

/-- `SdMmc::reset`: one write of the three reset bits to the control
register, then the bounded poll. -/
def reset (d : Device σ) (s : σ) : Step Unit × σ × List Event :=
  let v := CTRL_RESET ||| CTRL_FIFO_RESET ||| CTRL_DMA_RESET
  let s1 := d.write s SDMMC_CTRL v
  let q := reset_poll d 10000 s1
  (q.1, q.2.1, Event.write SDMMC_CTRL v :: q.2.2)

/-- `SdMmc::power_on`: a single write of 1 to the power-enable register. -/
def power_on (d : Device σ) (s : σ) : σ × List Event :=
  (d.write s SDMMC_PWREN 1, [Event.write SDMMC_PWREN 1])

/-- The polling loop of `SdMmc::update_clock`: same shape as the reset
poll, but on budget exhaustion it `break`s instead of returning an
error. -/
def update_clock_poll (d : Device σ) : Nat → σ → σ × List Event
  | 0, s => (s, [])
  | t + 1, s =>
    let r := d.read s SDMMC_CMD
    if r.1 &&& CMD_START ≠ 0 then
      let q := update_clock_poll d t r.2
      (q.1, Event.read SDMMC_CMD r.1 :: q.2)
    else
      (r.2, [Event.read SDMMC_CMD r.1])

/-- `SdMmc::update_clock`: write `CMD_START | CMD_WAIT_PRVDATA | (1 << 21)`
to the command register, then poll with budget 10000, tolerating
exhaustion. -/
def update_clock (d : Device σ) (s : σ) : σ × List Event :=
  let v := CMD_START ||| CMD_WAIT_PRVDATA ||| (1 <<< 21)
  let s1 := d.write s SDMMC_CMD v
  let q := update_clock_poll d 10000 s1
  (q.1, Event.write SDMMC_CMD v :: q.2)

/-- The divisor computation of `SdMmc::set_clock`:
`(50_000_000 / (2 * freq)) & 0xFF` for `freq > 0`, else 0.  The
multiplication `2 * freq` is wrapping 32-bit arithmetic; when it wraps to
zero (freq = 0x80000000) the Rust division panics, modelled as `none`. -/
def clk_divisor (freq : Nat) : Option Nat :=
  if 0 < freq then
    let twice := (2 * freq) % 4294967296
    if twice = 0 then none
    else some ((50000000 / twice) &&& 0xFF)
  else some 0

/-- `SdMmc::set_clock`: disable the clock, run the update handshake,
write the divisor, re-enable the clock, run the handshake again.  The
divisor computation can panic (see `clk_divisor`). -/
def set_clock (d : Device σ) (s : σ) (freq : Nat) : Step Unit × σ × List Event :=
  let s1 := d.write s SDMMC_CLKENA 0
  let u1 := update_clock d s1
  match clk_divisor freq with
  | none => (Step.panicked, u1.1, Event.write SDMMC_CLKENA 0 :: u1.2)
  | some dv =>
    let s2 := d.write u1.1 SDMMC_CLKDIV dv
    let s3 := d.write s2 SDMMC_CLKENA 1
    let u2 := update_clock d s3
    (Step.ok (), u2.1,
      Event.write SDMMC_CLKENA 0 ::
        (u1.2 ++ [Event.write SDMMC_CLKDIV dv, Event.write SDMMC_CLKENA 1] ++ u2.2))

/-- The width-to-encoding match of `SdMmc::set_bus_width`. -/
def bus_width_encoding (width : Nat) : Nat :=
  if width = 1 then 0x0
  else if width = 4 then 0x1
  else if width = 8 then 0x10000
  else 0x0

/-- `SdMmc::set_bus_width`: a single write of the encoding to the
bus-type register; it cannot fail. -/
def set_bus_width (d : Device σ) (s : σ) (width : Nat) : σ × List Event :=
  (d.write s SDMMC_CTYPE (bus_width_encoding width),
    [Event.write SDMMC_CTYPE (bus_width_encoding width)])

/-- `SdMmc::set_timeout`: a single write to the timeout register. -/
def set_timeout (d : Device σ) (s : σ) (t : Nat) : σ × List Event :=
  (d.write s SDMMC_TMOUT t, [Event.write SDMMC_TMOUT t])

/-- `SdMmc::configure_fifo`: write `(7 << 16) | (8 << 0) | (2 << 28)` to
the FIFO-threshold register. -/
def configure_fifo (d : Device σ) (s : σ) : σ × List Event :=
  let v := (7 <<< 16) ||| (8 <<< 0) ||| (2 <<< 28)
  (d.write s SDMMC_FIFOTH v, [Event.write SDMMC_FIFOTH v])

/-- `SdMmc::card_detect`: read the card-detect register; bit 0 clear
means a card is present. -/
def card_detect (d : Device σ) (s : σ) : Bool × σ × List Event :=
  let r := d.read s SDMMC_CDETECT
  (r.1 &&& 0x1 == 0, r.2, [Event.read SDMMC_CDETECT r.1])

/-- `SdMmc::init`: card-presence check, reset, power, 400 kHz clock,
1-bit bus, timeout 0xFFFFFF, FIFO thresholds. -/
def init (d : Device σ) (s : σ) : Step Unit × σ × List Event :=
  let c := card_detect d s
  if c.1 then
    let r := reset d c.2.1
    match r.1 with
    | Step.err e => (Step.err e, r.2.1, c.2.2 ++ r.2.2)
    | Step.panicked => (Step.panicked, r.2.1, c.2.2 ++ r.2.2)
    | Step.ok _ =>
      let p := power_on d r.2.1
      let k := set_clock d p.1 400000
      match k.1 with
      | Step.err e => (Step.err e, k.2.1, c.2.2 ++ r.2.2 ++ p.2 ++ k.2.2)
      | Step.panicked => (Step.panicked, k.2.1, c.2.2 ++ r.2.2 ++ p.2 ++ k.2.2)
      | Step.ok _ =>
        let b := set_bus_width d k.2.1 1
        let t := set_timeout d b.1 0xFFFFFF
        let f := configure_fifo d t.1
        (Step.ok (), f.1, c.2.2 ++ r.2.2 ++ p.2 ++ k.2.2 ++ b.2 ++ t.2 ++ f.2)
  else
    (Step.err MmcError.CardNotPresent, c.2.1, c.2.2)

/-- The polling loop of `SdMmc::send_command`: like the reset poll but on
the command register's start bit, failing with `CommandTimeout`. -/
def cmd_poll (d : Device σ) : Nat → σ → Step Unit × σ × List Event
  | 0, s => (Step.err MmcError.CommandTimeout, s, [])
  | t + 1, s =>
    let r := d.read s SDMMC_CMD
    if r.1 &&& CMD_START ≠ 0 then
      let q := cmd_poll d t r.2
      (q.1, q.2.1, Event.read SDMMC_CMD r.1 :: q.2.2)
    else
      (Step.ok (), r.2, [Event.read SDMMC_CMD r.1])

/-- `SdMmc::send_command`: write the argument register, write
`CMD_START | cmd` to the command register, poll with budget 10000, then
on success read response word 0. -/
def send_command (d : Device σ) (s : σ) (cmd arg : Nat) : Step Nat × σ × List Event :=
  let s1 := d.write s SDMMC_CMDARG arg
  let s2 := d.write s1 SDMMC_CMD (CMD_START ||| cmd)
  let p := cmd_poll d 10000 s2
  let pre := [Event.write SDMMC_CMDARG arg, Event.write SDMMC_CMD (CMD_START ||| cmd)]
  match p.1 with
  | Step.err e => (Step.err e, p.2.1, pre ++ p.2.2)
  | Step.panicked => (Step.panicked, p.2.1, pre ++ p.2.2)
  | Step.ok _ =>
    let r := d.read p.2.1 SDMMC_RESP0
    (Step.ok r.1, r.2, pre ++ p.2.2 ++ [Event.read SDMMC_RESP0 r.1])

/-- `SdMmc::read_block`: the source body is `Ok(())` with a TODO — no
register access, the buffer is untouched.  The embedding returns the
result, the device state, the trace and the (unchanged) buffer. -/
def read_block (d : Device σ) (s : σ) (blockAddr : Nat) (buffer : List Nat) :
    Step Unit × σ × List Event × List Nat :=
  (Step.ok (), s, [], buffer)

/-- `SdMmc::write_block`: the source body is `Ok(())` with a TODO — no
register access. -/
def write_block (d : Device σ) (s : σ) (blockAddr : Nat) (buffer : List Nat) :
    Step Unit × σ × List Event :=
  (Step.ok (), s, [])

/-! GPIO driver (src/drivers/gpio/src/lib.rs): only the argument-validating
constructors are claim-relevant.  Rust `assert!`/`panic!` failures are
modelled by `Option`, with `none` for the panic. -/

/-- The five GPIO banks of the RK3588. -/
inductive GpioBank where
  | Gpio0
  | Gpio1
  | Gpio2
  | Gpio3
  | Gpio4
deriving DecidableEq, Repr

def GPIO0_BASE : Nat := 0xFD8A0000

def GPIO1_BASE : Nat := 0xFEC20000

def GPIO2_BASE : Nat := 0xFEC30000

def GPIO3_BASE : Nat := 0xFEC40000

def GPIO4_BASE : Nat := 0xFEC50000

/-- The bank-to-base match inside `GpioPin::new`. -/
def gpio_bank_base : GpioBank → Nat
  | GpioBank.Gpio0 => GPIO0_BASE
  | GpioBank.Gpio1 => GPIO1_BASE
  | GpioBank.Gpio2 => GPIO2_BASE
  | GpioBank.Gpio3 => GPIO3_BASE
  | GpioBank.Gpio4 => GPIO4_BASE

/-- A constructed GPIO pin handle (base address and pin number). -/
structure GpioPin where
  base : Nat
  pin : Nat
deriving DecidableEq, Repr

/-- `GpioPin::new`: `assert!(pin < 32)` then construct the handle; the
failed assertion (an unrecoverable Rust panic, before any handle exists)
is modelled as `none`. -/
def GpioPin.new (bank : GpioBank) (pin : Nat) : Option GpioPin :=
  if pin < 32 then some ⟨gpio_bank_base bank, pin⟩ else none

/-- The group-letter match inside `parse_gpio_name`, applied to the ASCII
uppercased character; the catch-all panic arm is `none`. -/
def group_offset (group : Char) : Option Nat :=
  let g := group.toUpper
  if g = 'A' then some 0
  else if g = 'B' then some 8
  else if g = 'C' then some 16
  else if g = 'D' then some 24
  else none

/-- The bank-number match inside `parse_gpio_name` (its `_` arm is
`unreachable!`, guarded by the preceding assert). -/
def gpio_bank_of_nat (bank : Nat) : Option GpioBank :=
  match bank with
  | 0 => some GpioBank.Gpio0
  | 1 => some GpioBank.Gpio1
  | 2 => some GpioBank.Gpio2
  | 3 => some GpioBank.Gpio3
  | 4 => some GpioBank.Gpio4
  | _ => none

/-- `parse_gpio_name`: `assert!(bank < 5)`, `assert!(pin < 8)`, map the
bank number, map the (case-insensitively matched) group letter, return
`(bank, group_offset + pin)`.  Every panic path is `none`. -/
def parse_gpio_name (bank : Nat) (group : Char) (pin : Nat) : Option (GpioBank × Nat) :=
  if bank < 5 then
    if pin < 8 then
      match gpio_bank_of_nat bank, group_offset group with
      | some be, some off => some (be, off + pin)
      | _, _ => none
    else none
  else none

/-! Trace helpers and concrete devices used by the theorems. -/

/-- The value written by an event, when it is a write to `offset`. -/
def writeValueAt (offset : Nat) : Event → Option Nat
  | Event.write o v => if o = offset then some v else none
  | Event.read _ _ => none

/-- The sequence of values a trace writes to a given register. -/
def writesTo (offset : Nat) (tr : List Event) : List Nat :=
  tr.filterMap (writeValueAt offset)

/-- A controller that acknowledges everything at once: every read of the
command register shows the start bit clear, response word 0 reads as
0x12345678, the card-detect register reads as 0 (card present). -/
def ackDevice : Device Unit where
  read := fun _ off => (if off = SDMMC_RESP0 then 0x12345678 else 0, ())
  write := fun _ _ _ => ()

/-- A controller that never makes progress: every register reads as all
ones except card-detect, which reads 0 (card present); so the reset bits
never clear and the command start bit never clears. -/
def stuckDevice : Device Unit where
  read := fun _ off => (if off = SDMMC_CDETECT then 0 else 0xFFFFFFFF, ())
  write := fun _ _ _ => ()

/-- A controller with no card: every register reads as 1, so bit 0 of
the card-detect register is set (card absent). -/
def absentDevice : Device Unit where
  read := fun _ _ => (1, ())
  write := fun _ _ _ => ()

/-! Helper lemmas about traces and the polling loops. -/

theorem writesTo_nil (off : Nat) : writesTo off [] = [] := rfl

theorem writesTo_cons_read (off o v : Nat) (tr : List Event) :
    writesTo off (Event.read o v :: tr) = writesTo off tr := by
  simp [writesTo, writeValueAt]

theorem writesTo_cons_write (off o v : Nat) (tr : List Event) :
    writesTo off (Event.write o v :: tr) =
      if o = off then v :: writesTo off tr else writesTo off tr := by
  by_cases h : o = off
  · simp [writesTo, writeValueAt, h]
  · simp [writesTo, writeValueAt, h]

theorem writesTo_append (off : Nat) (t1 t2 : List Event) :
    writesTo off (t1 ++ t2) = writesTo off t1 ++ writesTo off t2 := by
  simp [writesTo]

theorem update_clock_poll_no_writes {σ : Type} (d : Device σ) (off : Nat) :
    ∀ (fuel : Nat) (s : σ), writesTo off (update_clock_poll d fuel s).2 = [] := by
  intro fuel
  induction fuel with
  | zero => intro s; simp [update_clock_poll, writesTo_nil]
  | succ t ih =>
    intro s
    simp only [update_clock_poll]
    split
    · simp [writesTo_cons_read, ih]
    · simp [writesTo_cons_read, writesTo_nil]

theorem update_clock_no_write_off {σ : Type} (d : Device σ) (s : σ) (off : Nat)
    (h : off ≠ SDMMC_CMD) :
    writesTo off (update_clock d s).2 = [] := by
  simp only [update_clock]
  rw [writesTo_cons_write]
  rw [if_neg (fun hc => h hc.symm)]
  exact update_clock_poll_no_writes d off 10000 _

theorem clk_divisor_of_lt (f : Nat) (h1 : 0 < f) (h2 : f < 2147483648) :
    clk_divisor f = some ((50000000 / (2 * f)) &&& 0xFF) := by
  have h3 : (2 * f) % 4294967296 = 2 * f := Nat.mod_eq_of_lt (by omega)
  have h4 : ¬ 2 * f = 0 := by omega
  simp [clk_divisor, h1, h3, h4]

theorem set_clock_writes_divisor {σ : Type} (d : Device σ) (s : σ) (f dv : Nat)
    (h : clk_divisor f = some dv) :
    writesTo SDMMC_CLKDIV (set_clock d s f).2.2 = [dv] := by
  simp only [set_clock, h]
  rw [writesTo_cons_write, if_neg (by decide : ¬ SDMMC_CLKENA = SDMMC_CLKDIV)]
  rw [writesTo_append, writesTo_append]
  rw [update_clock_no_write_off d _ _ (by decide), update_clock_no_write_off d _ _ (by decide)]
  rw [writesTo_cons_write, if_pos rfl]
  rw [writesTo_cons_write, if_neg (by decide : ¬ SDMMC_CLKENA = SDMMC_CLKDIV)]
  simp [writesTo_nil]

theorem set_clock_ok_of_some {σ : Type} (d : Device σ) (s : σ) (f dv : Nat)
    (h : clk_divisor f = some dv) :
    (set_clock d s f).1 = Step.ok () := by
  simp [set_clock, h]

theorem reset_poll_ok_or_timeout {σ : Type} (d : Device σ) :
    ∀ (fuel : Nat) (s : σ), (reset_poll d fuel s).1 = Step.ok () ∨
      (reset_poll d fuel s).1 = Step.err MmcError.ResetTimeout := by
  intro fuel
  induction fuel with
  | zero => intro s; simp [reset_poll]
  | succ t ih =>
    intro s
    simp only [reset_poll]
    split
    · simpa using ih _
    · simp

theorem reset_ok_or_timeout {σ : Type} (d : Device σ) (s : σ) :
    (reset d s).1 = Step.ok () ∨ (reset d s).1 = Step.err MmcError.ResetTimeout := by
  simpa [reset] using reset_poll_ok_or_timeout d 10000 (d.write s SDMMC_CTRL
    (CTRL_RESET ||| CTRL_FIFO_RESET ||| CTRL_DMA_RESET))

theorem reset_poll_stuck {σ : Type} (d : Device σ)
    (h : ∀ s', (d.read s' SDMMC_CTRL).1 &&& 0x07 ≠ 0) :
    ∀ (fuel : Nat) (s : σ), (reset_poll d fuel s).1 = Step.err MmcError.ResetTimeout ∧
      (reset_poll d fuel s).2.2.length = fuel ∧
      ∀ e ∈ (reset_poll d fuel s).2.2, ∃ v, e = Event.read SDMMC_CTRL v := by
  intro fuel
  induction fuel with
  | zero => intro s; simp [reset_poll]
  | succ t ih =>
    intro s
    obtain ⟨ih1, ih2, ih3⟩ := ih (d.read s SDMMC_CTRL).2
    simp only [reset_poll]
    rw [if_pos (h s)]
    refine ⟨ih1, by simpa using ih2, ?_⟩
    intro e he
    rcases List.mem_cons.mp he with he | he
    · exact ⟨(d.read s SDMMC_CTRL).1, he⟩
    · exact ih3 e he

theorem cmd_poll_stuck {σ : Type} (d : Device σ)
    (h : ∀ s', (d.read s' SDMMC_CMD).1 &&& CMD_START ≠ 0) :
    ∀ (fuel : Nat) (s : σ), (cmd_poll d fuel s).1 = Step.err MmcError.CommandTimeout ∧
      (cmd_poll d fuel s).2.2.length = fuel ∧
      ∀ e ∈ (cmd_poll d fuel s).2.2, ∃ v, e = Event.read SDMMC_CMD v := by
  intro fuel
  induction fuel with
  | zero => intro s; simp [cmd_poll]
  | succ t ih =>
    intro s
    obtain ⟨ih1, ih2, ih3⟩ := ih (d.read s SDMMC_CMD).2
    simp only [cmd_poll]
    rw [if_pos (h s)]
    refine ⟨ih1, by simpa using ih2, ?_⟩
    intro e he
    rcases List.mem_cons.mp he with he | he
    · exact ⟨(d.read s SDMMC_CMD).1, he⟩
    · exact ih3 e he

theorem update_clock_poll_stuck_length {σ : Type} (d : Device σ)
    (h : ∀ s', (d.read s' SDMMC_CMD).1 &&& CMD_START ≠ 0) :
    ∀ (fuel : Nat) (s : σ), (update_clock_poll d fuel s).2.length = fuel := by
  intro fuel
  induction fuel with
  | zero => intro s; simp [update_clock_poll]
  | succ t ih =>
    intro s
    simp only [update_clock_poll]
    rw [if_pos (h s)]
    simpa using ih _

theorem cmd_poll_first_clear {σ : Type} (d : Device σ) (s : σ) (fuel : Nat)
    (h : (d.read s SDMMC_CMD).1 &&& CMD_START = 0) :
    cmd_poll d (fuel + 1) s =
      (Step.ok (), (d.read s SDMMC_CMD).2,
        [Event.read SDMMC_CMD (d.read s SDMMC_CMD).1]) := by
  simp [cmd_poll, h]

/-- The device state after the two writes `send_command` performs (the
argument, then the command index with the start bit). -/
def after_cmd_writes {σ : Type} (d : Device σ) (s : σ) (cmd arg : Nat) : σ :=
  d.write (d.write s SDMMC_CMDARG arg) SDMMC_CMD (CMD_START ||| cmd)

/-- C1: for every command index and argument, `send_command` first writes
the argument to the argument register (0x028), then the command index
combined with the start bit to the command register (0x02C); if the first
poll of the command register shows the start bit clear, it returns `Ok`
with exactly the value read from the response-word-0 register (0x030),
unmodified. -/
theorem send_command_immediate_ack {σ : Type} (d : Device σ) (s : σ) (cmd arg : Nat)
    (h : (d.read (after_cmd_writes d s cmd arg) SDMMC_CMD).1 &&& CMD_START = 0) :
    send_command d s cmd arg =
      (Step.ok (d.read (d.read (after_cmd_writes d s cmd arg) SDMMC_CMD).2 SDMMC_RESP0).1,
        (d.read (d.read (after_cmd_writes d s cmd arg) SDMMC_CMD).2 SDMMC_RESP0).2,
        [Event.write SDMMC_CMDARG arg,
         Event.write SDMMC_CMD (CMD_START ||| cmd),
         Event.read SDMMC_CMD (d.read (after_cmd_writes d s cmd arg) SDMMC_CMD).1,
         Event.read SDMMC_RESP0
           (d.read (d.read (after_cmd_writes d s cmd arg) SDMMC_CMD).2 SDMMC_RESP0).1]) := by
  have h10 : (10000 : Nat) = 9999 + 1 := rfl
  simp only [after_cmd_writes] at h
  simp only [send_command, h10, cmd_poll_first_clear d _ 9999 h, after_cmd_writes]
  rfl

/-- C1 witness: a controller acknowledging at once, command 17 with
argument 0xABCD; the response register value 0x12345678 is returned
verbatim. -/
theorem send_command_immediate_ack_witness :
    send_command ackDevice () 17 0xABCD =
      (Step.ok 0x12345678, (),
        [Event.write SDMMC_CMDARG 0xABCD,
         Event.write SDMMC_CMD (CMD_START ||| 17),
         Event.read SDMMC_CMD 0,
         Event.read SDMMC_RESP0 0x12345678]) := by
  exact send_command_immediate_ack ackDevice () 17 0xABCD (by decide)

/-- C2: against a controller whose reset-status bits never clear (and
whose card-detect bit reads as present), `reset` writes the three reset
bits in a single write, then reads the control register exactly 10000
times before failing with `ResetTimeout`, and `init` surfaces that
error. -/
theorem reset_full_budget_timeout {σ : Type} (d : Device σ) (s : σ)
    (hstuck : ∀ s', (d.read s' SDMMC_CTRL).1 &&& 0x07 ≠ 0)
    (hcard : ∀ s', (d.read s' SDMMC_CDETECT).1 &&& 0x1 = 0) :
    (reset d s).1 = Step.err MmcError.ResetTimeout ∧
    (∃ tr, (reset d s).2.2 =
        Event.write SDMMC_CTRL (CTRL_RESET ||| CTRL_FIFO_RESET ||| CTRL_DMA_RESET) :: tr ∧
      tr.length = 10000 ∧ ∀ e ∈ tr, ∃ v, e = Event.read SDMMC_CTRL v) ∧
    (init d s).1 = Step.err MmcError.ResetTimeout := by
  obtain ⟨h1, h2, h3⟩ := reset_poll_stuck d hstuck 10000
    (d.write s SDMMC_CTRL (CTRL_RESET ||| CTRL_FIFO_RESET ||| CTRL_DMA_RESET))
  refine ⟨by simpa [reset] using h1, ⟨_, by simp [reset], h2, h3⟩, ?_⟩
  have hb : (d.read s SDMMC_CDETECT).1 % 2 = 0 := by
    have := hcard s
    rwa [Nat.and_one_is_mod] at this
  have hr : (reset d (d.read s SDMMC_CDETECT).2).1 = Step.err MmcError.ResetTimeout := by
    simpa [reset] using (reset_poll_stuck d hstuck 10000 _).1
  simp [init, card_detect, hb, hr]

/-- C2 witness: the stuck controller. -/
theorem reset_full_budget_timeout_witness :
    (reset stuckDevice ()).1 = Step.err MmcError.ResetTimeout ∧
    (∃ tr, (reset stuckDevice ()).2.2 =
        Event.write SDMMC_CTRL (CTRL_RESET ||| CTRL_FIFO_RESET ||| CTRL_DMA_RESET) :: tr ∧
      tr.length = 10000 ∧ ∀ e ∈ tr, ∃ v, e = Event.read SDMMC_CTRL v) ∧
    (init stuckDevice ()).1 = Step.err MmcError.ResetTimeout :=
  reset_full_budget_timeout stuckDevice () (fun s' => by cases s'; decide)
    (fun s' => by cases s'; decide)

/-- C3 counterexample: at the frequency 0x80000001 (a 32-bit value above
2^31) the wrapping multiplication makes the driver write
(50000000/2) & 0xFF = 64 to the clock-divider register, while the claimed
formula floor(50000000 / (2 * f)) & 0xFF gives 0 there. -/
theorem set_clock_divisor_counterexample :
    writesTo SDMMC_CLKDIV (set_clock ackDevice () 2147483649).2.2 = [64] ∧
    (50000000 / (2 * 2147483649)) &&& 0xFF = 0 ∧ (64 : Nat) ≠ 0 := by
  refine ⟨by decide, by decide, by decide⟩

/-- C3 (amended): for every target frequency f with 0 < f < 2^31 (so that
the doubled frequency does not wrap in 32 bits), the value `set_clock`
writes to the clock-divider register equals
floor(50000000 / (2 * f)) & 0xFF. -/
theorem set_clock_divisor_formula {σ : Type} (d : Device σ) (s : σ) (f : Nat)
    (h1 : 0 < f) (h2 : f < 2147483648) :
    writesTo SDMMC_CLKDIV (set_clock d s f).2.2 = [(50000000 / (2 * f)) &&& 0xFF] :=
  set_clock_writes_divisor d s f _ (clk_divisor_of_lt f h1 h2)

/-- C3 witness: at f = 400000 the single divider write is 62 (0x3E). -/
theorem set_clock_divisor_formula_witness :
    0 < 400000 ∧ 400000 < 2147483648 ∧
    writesTo SDMMC_CLKDIV (set_clock ackDevice () 400000).2.2 = [62] := by
  refine ⟨by decide, by decide, ?_⟩
  have h := set_clock_divisor_formula ackDevice () 400000 (by decide) (by decide)
  exact h.trans (by decide)

/-- C4: when bit 0 of the card-detect register is set (card absent),
`init` returns `CardNotPresent` and its whole trace is that single read —
no register is written and no later step runs. -/
theorem init_card_absent {σ : Type} (d : Device σ) (s : σ)
    (h : (d.read s SDMMC_CDETECT).1 &&& 0x1 ≠ 0) :
    init d s = (Step.err MmcError.CardNotPresent, (d.read s SDMMC_CDETECT).2,
      [Event.read SDMMC_CDETECT (d.read s SDMMC_CDETECT).1]) := by
  have hb : ¬ (d.read s SDMMC_CDETECT).1 % 2 = 0 := by
    rwa [Nat.and_one_is_mod] at h
  simp [init, card_detect, hb]

/-- C4 witness: the card-absent controller. -/
theorem init_card_absent_witness :
    init absentDevice () = (Step.err MmcError.CardNotPresent, (),
      [Event.read SDMMC_CDETECT 1]) := by
  exact init_card_absent absentDevice () (by decide)

/-- C5: `init` can only return `CardNotPresent`, `ResetTimeout`, or `Ok`
(never any other member of the error taxonomy, and never a panic); and
once card detection and reset succeed, every later step completes and
`init` returns `Ok`. -/
theorem init_error_taxonomy {σ : Type} (d : Device σ) (s : σ) :
    ((init d s).1 = Step.err MmcError.CardNotPresent ∨
     (init d s).1 = Step.err MmcError.ResetTimeout ∨
     (init d s).1 = Step.ok ()) ∧
    ((card_detect d s).1 = true →
      (reset d (card_detect d s).2.1).1 = Step.ok () →
      (init d s).1 = Step.ok ()) := by
  have hclk : ∀ s', (set_clock d s' 400000).1 = Step.ok () :=
    fun s' => set_clock_ok_of_some d s' 400000 62 (by decide)
  have hdet : (card_detect d s).1 = true ↔ (d.read s SDMMC_CDETECT).1 % 2 = 0 := by
    simp [card_detect, Nat.and_one_is_mod]
  by_cases hc : (d.read s SDMMC_CDETECT).1 % 2 = 0
  · rcases reset_ok_or_timeout d (d.read s SDMMC_CDETECT).2 with hr | hr
    · have hok : (init d s).1 = Step.ok () := by
        simp [init, card_detect, hc, hr, hclk, power_on]
      exact ⟨Or.inr (Or.inr hok), fun _ _ => hok⟩
    · have hto : (init d s).1 = Step.err MmcError.ResetTimeout := by
        simp [init, card_detect, hc, hr]
      refine ⟨Or.inr (Or.inl hto), ?_⟩
      intro _ hrok
      have hr' : (reset d (card_detect d s).2.1).1 = Step.err MmcError.ResetTimeout := by
        simpa [card_detect] using hr
      rw [hrok] at hr'
      simp at hr'
  · have hnp : (init d s).1 = Step.err MmcError.CardNotPresent := by
      simp [init, card_detect, hc]
    refine ⟨Or.inl hnp, ?_⟩
    intro hcd _
    exact absurd (hdet.mp hcd) hc

/-- C5 witness: a responsive controller with a card present passes card
detection and reset, and `init` returns `Ok`. -/
theorem init_error_taxonomy_witness :
    (init ackDevice ()).1 = Step.ok () :=
  (init_error_taxonomy ackDevice ()).2 (by decide) (by decide)

/-- C6 counterexample: at the frequency 0x80000000 the wrapped doubled
frequency is zero, the divisor division panics, and `set_clock` does not
return Ok — so it does not return Ok for every frequency argument. -/
theorem set_clock_panics_counterexample :
    (set_clock ackDevice () 2147483648).1 = Step.panicked ∧
    (Step.panicked : Step Unit) ≠ Step.ok () := ⟨by decide, by decide⟩

/-- C6 (amended): the clock-update handshake tolerates polling-budget
exhaustion — against a controller that never acknowledges, the poll of
`update_clock` performs its full budget of 10000 reads after the one
write and then returns without error — and `set_clock` returns Ok for
every 32-bit frequency argument except 0x80000000 (where the wrapped
doubled frequency is zero and the divisor division panics), against any
controller. -/
theorem set_clock_tolerates_exhaustion {σ : Type} (d : Device σ) (s : σ) (f : Nat)
    (h1 : f < 4294967296) (h2 : f ≠ 2147483648) :
    (set_clock d s f).1 = Step.ok () ∧
    ((∀ s', (d.read s' SDMMC_CMD).1 &&& CMD_START ≠ 0) →
      (update_clock d s).2.length = 10001) := by
  constructor
  · rcases Nat.eq_zero_or_pos f with hf | hf
    · exact set_clock_ok_of_some d s f 0 (by simp [clk_divisor, hf])
    · have htw : ¬ (2 * f) % 4294967296 = 0 := by
        intro hz
        obtain ⟨k, hk⟩ := Nat.dvd_of_mod_eq_zero hz
        omega
      exact set_clock_ok_of_some d s f ((50000000 / ((2 * f) % 4294967296)) &&& 0xFF)
        (by simp [clk_divisor, hf, htw])
  · intro hstuck
    simp [update_clock, update_clock_poll_stuck_length d hstuck 10000]

/-- C6 witness: a never-acknowledging controller at 25 MHz. -/
theorem set_clock_tolerates_exhaustion_witness :
    (set_clock stuckDevice () 25000000).1 = Step.ok () ∧
    (update_clock stuckDevice ()).2.length = 10001 := by
  have h := set_clock_tolerates_exhaustion stuckDevice () 25000000 (by decide) (by decide)
  exact ⟨h.1, h.2 (fun s' => by cases s'; decide)⟩

/-- C7: against a controller that never clears the start bit,
`send_command` returns `CommandTimeout` after its budget of 10000 polls;
the argument and command registers are each written exactly once (the
only two writes, in order, at the head of the trace), every remaining
event is a read of the command register, and the response-word-0 register
is never read. -/
theorem send_command_timeout_no_retry {σ : Type} (d : Device σ) (s : σ) (cmd arg : Nat)
    (h : ∀ s', (d.read s' SDMMC_CMD).1 &&& CMD_START ≠ 0) :
    (send_command d s cmd arg).1 = Step.err MmcError.CommandTimeout ∧
    ∃ tr, (send_command d s cmd arg).2.2 =
        Event.write SDMMC_CMDARG arg :: Event.write SDMMC_CMD (CMD_START ||| cmd) :: tr ∧
      tr.length = 10000 ∧ ∀ e ∈ tr, ∃ v, e = Event.read SDMMC_CMD v := by
  obtain ⟨h1, h2, h3⟩ := cmd_poll_stuck d h 10000
    (d.write (d.write s SDMMC_CMDARG arg) SDMMC_CMD (CMD_START ||| cmd))
  exact ⟨by simp [send_command, h1], _, by simp [send_command, h1], h2, h3⟩

/-- C7 witness: the stuck controller, command 8 with argument 0x1AA. -/
theorem send_command_timeout_no_retry_witness :
    (send_command stuckDevice () 8 0x1AA).1 = Step.err MmcError.CommandTimeout ∧
    ∃ tr, (send_command stuckDevice () 8 0x1AA).2.2 =
        Event.write SDMMC_CMDARG 0x1AA :: Event.write SDMMC_CMD (CMD_START ||| 8) :: tr ∧
      tr.length = 10000 ∧ ∀ e ∈ tr, ∃ v, e = Event.read SDMMC_CMD v :=
  send_command_timeout_no_retry stuckDevice () 8 0x1AA (fun s' => by cases s'; decide)

/-- C8: the value `set_bus_width` writes to the bus-type register is
exactly 0x0 for width 1, 0x1 for width 4, 0x10000 for width 8, and 0x0
(the 1-bit encoding) for every other width; it is a single register write
and cannot fail. -/
theorem set_bus_width_encoding_table {σ : Type} (d : Device σ) (s : σ) (w : Nat) :
    (set_bus_width d s 1).2 = [Event.write SDMMC_CTYPE 0x0] ∧
    (set_bus_width d s 4).2 = [Event.write SDMMC_CTYPE 0x1] ∧
    (set_bus_width d s 8).2 = [Event.write SDMMC_CTYPE 0x10000] ∧
    (w ≠ 1 → w ≠ 4 → w ≠ 8 → (set_bus_width d s w).2 = [Event.write SDMMC_CTYPE 0x0]) := by
  refine ⟨rfl, rfl, rfl, ?_⟩
  intro h1 h4 h8
  simp [set_bus_width, bus_width_encoding, h1, h4, h8]

/-- C8 witness: the four encodings at widths 1, 4, 8 and 7. -/
theorem set_bus_width_encoding_table_witness :
    (set_bus_width ackDevice () 1).2 = [Event.write SDMMC_CTYPE 0x0] ∧
    (set_bus_width ackDevice () 4).2 = [Event.write SDMMC_CTYPE 0x1] ∧
    (set_bus_width ackDevice () 8).2 = [Event.write SDMMC_CTYPE 0x10000] ∧
    (set_bus_width ackDevice () 7).2 = [Event.write SDMMC_CTYPE 0x0] := by
  obtain ⟨a, b, c, hd⟩ := set_bus_width_encoding_table ackDevice () 7
  exact ⟨a, b, c, hd (by decide) (by decide) (by decide)⟩

/-- C9: caller-supplied invalid arguments terminate the call path
unrecoverably (modelled as `none`) instead of returning or touching
hardware: `GpioPin.new` for every pin ≥ 32, and `parse_gpio_name` for
every bank ≥ 5, pin ≥ 8, or group letter outside A/B/C/D
case-insensitively. -/
theorem gpio_invalid_args_panic :
    (∀ (bank : GpioBank) (pin : Nat), 32 ≤ pin → GpioPin.new bank pin = none) ∧
    (∀ (bank : Nat) (group : Char) (pin : Nat),
      5 ≤ bank ∨ 8 ≤ pin ∨
        (group.toUpper ≠ 'A' ∧ group.toUpper ≠ 'B' ∧
          group.toUpper ≠ 'C' ∧ group.toUpper ≠ 'D') →
      parse_gpio_name bank group pin = none) := by
  constructor
  · intro bank pin hp
    simp [GpioPin.new, Nat.not_lt.mpr hp]
  · intro bank group pin hcase
    rcases hcase with hb | hp | ⟨hA, hB, hC, hD⟩
    · simp [parse_gpio_name, Nat.not_lt.mpr hb]
    · by_cases hb5 : bank < 5
      · simp [parse_gpio_name, hb5, Nat.not_lt.mpr hp]
      · simp [parse_gpio_name, hb5]
    · have hoff : group_offset group = none := by
        simp [group_offset, hA, hB, hC, hD]
      by_cases hb5 : bank < 5
      · by_cases hp8 : pin < 8
        · rcases hgb : gpio_bank_of_nat bank with _ | be <;>
            simp [parse_gpio_name, hb5, hp8, hoff, hgb]
        · simp [parse_gpio_name, hb5, hp8]
      · simp [parse_gpio_name, hb5]

/-- C9 witness: pin 32, bank 5, and group letter X all panic. -/
theorem gpio_invalid_args_panic_witness :
    GpioPin.new GpioBank.Gpio0 32 = none ∧ parse_gpio_name 5 'B' 3 = none ∧
    parse_gpio_name 0 'X' 3 = none :=
  ⟨gpio_invalid_args_panic.1 GpioBank.Gpio0 32 (by decide),
   gpio_invalid_args_panic.2 5 'B' 3 (Or.inl (by decide)),
   gpio_invalid_args_panic.2 0 'X' 3 (Or.inr (Or.inr (by decide)))⟩

/-- C10: `read_block` and `write_block` are no-op stubs: for every block
address and buffer they return `Ok` unconditionally, perform no register
access, leave the device state unchanged, and `read_block` leaves the
caller's buffer completely unchanged. -/
theorem block_ops_are_stubs {σ : Type} (d : Device σ) (s : σ) (a : Nat) (buf : List Nat) :
    read_block d s a buf = (Step.ok (), s, [], buf) ∧
    write_block d s a buf = (Step.ok (), s, []) :=
  ⟨rfl, rfl⟩

end WhitcloudOS
